import Mathlib

/-!
Verification of the drawnix AI image-generation core against its source.

The definitions below are a shallow embedding of
`packages/drawnix/src/utils/ai-generation-worker.ts`,
`packages/drawnix/src/utils/ai-generation-placeholder.ts` and
`packages/drawnix/src/hooks/use-ai-generation-tasks.ts`.
Network traffic, the browser storage and the drawing surface are modelled as
explicit oracles and state passed through the functions; JavaScript strings
become `String`, numbers become `ℚ`/`Nat`, thrown exceptions become `Except`
or an explicit error component of the result.
-/

namespace Drawnix

/-! ## Endpoint path cache (ai-generation-worker.ts, lines 29-48)

The localStorage-backed JSON record `drawnix_api_path_cache` is modelled as an
association list from baseUrl to a path template; assignment to a key
overwrites any previous binding, as JS object assignment does. -/

abbrev Cache := List (String × String)

/-- `setPathCache(baseUrl, template)`: `cache[baseUrl] = template`. -/
def setPathCache (baseUrl template : String) (cache : Cache) : Cache :=
  (baseUrl, template) :: cache.filter (fun p => p.1 ≠ baseUrl)

/-- `getCachedTemplate(baseUrl)`: `cache[baseUrl]`. -/
def getCachedTemplate (baseUrl : String) (cache : Cache) : Option String :=
  cache.lookup baseUrl

/-- Outcome of one `fetch` call: an HTTP response with a status code, or a
thrown transport error carrying a message. -/
inductive FetchOutcome where
  | resp (status : Nat)
  | err (msg : String)
deriving Repr, DecidableEq

/-- First-occurrence replacement on character lists: the semantics of the JS
`String.prototype.replace` with a string pattern, which substitutes only the
first occurrence (each template contains each placeholder once). -/
def replaceFirst (l pat rep : List Char) : List Char :=
  match l with
  | [] => if pat.isEmpty then rep else []
  | c :: t => if pat.isPrefixOf l then rep ++ l.drop pat.length else c :: replaceFirst t pat rep

/-- JS `s.replace(pat, rep)` for string patterns. -/
def jsReplace (s pat rep : String) : String := ⟨replaceFirst s.data pat.data rep.data⟩

/-- `template.replace('{baseUrl}', baseUrl).replace('{model}', imageModel)`
(worker lines 508 and 530). -/
def resolveUrl (template baseUrl model : String) : String :=
  jsReplace (jsReplace template "{baseUrl}" baseUrl) "{model}" model

/-- The fixed probing order `apiPathTemplates` (worker lines 519-525). -/
def apiPathTemplates : List String :=
  [ "{baseUrl}/models/{model}:generateContent"
  , "{baseUrl}/v1beta/models/{model}:generateContent"
  , "{baseUrl}/v1/models/{model}:generateContent"
  , "{baseUrl}/{model}:generateContent"
  , "{baseUrl}/api/generate" ]

/-- Result of the endpoint-dispatch portion of `generateImageWithGeminiAPI`
(worker lines 505-555): the ordered list of requests issued (URL and
outcome), the final path cache, and either the accepted response — the
template that produced it and its status, handed to `processApiResponse` —
or the thrown error. -/
structure DispatchResult where
  trace : List (String × FetchOutcome)
  cache : Cache
  result : Except String (String × Nat)
deriving Repr

/-- The probing loop `for (const template of apiPathTemplates)` (worker lines
527-555): a transport error is recorded as `lastError` and probing continues;
a 404 continues silently; the first non-404 response writes its template to
the cache and is accepted; exhaustion throws `lastError` or the literal
fallback message. -/
def probeLoop (net : String → FetchOutcome) (baseUrl model : String) (cache : Cache)
    (templates : List String) (lastError : Option String)
    (trace : List (String × FetchOutcome)) : DispatchResult :=
  match templates with
  | [] => ⟨trace, cache, Except.error (lastError.getD "所有API路径都尝试失败")⟩
  | template :: rest =>
    let apiUrl := resolveUrl template baseUrl model
    match net apiUrl with
    | FetchOutcome.err m =>
        probeLoop net baseUrl model cache rest (some m) (trace ++ [(apiUrl, FetchOutcome.err m)])
    | FetchOutcome.resp s =>
        if s ≠ 404 then
          ⟨trace ++ [(apiUrl, FetchOutcome.resp s)], setPathCache baseUrl template cache,
           Except.ok (template, s)⟩
        else
          probeLoop net baseUrl model cache rest lastError (trace ++ [(apiUrl, FetchOutcome.resp s)])

/-- The dispatch logic of `generateImageWithGeminiAPI` (worker lines 505-555):
if a cached template exists for `baseUrl` it is tried first; a non-404
response from it is accepted directly (without rewriting the cache); a 404
falls back to full probing; a transport error on the cached URL propagates
out of the function. Without a cache entry, probing runs directly. -/
def generateImageDispatch (net : String → FetchOutcome) (baseUrl model : String)
    (cache : Cache) : DispatchResult :=
  match getCachedTemplate baseUrl cache with
  | some cachedTemplate =>
    let apiUrl := resolveUrl cachedTemplate baseUrl model
    match net apiUrl with
    | FetchOutcome.err m => ⟨[(apiUrl, FetchOutcome.err m)], cache, Except.error m⟩
    | FetchOutcome.resp s =>
        if s ≠ 404 then
          ⟨[(apiUrl, FetchOutcome.resp s)], cache, Except.ok (cachedTemplate, s)⟩
        else
          probeLoop net baseUrl model cache apiPathTemplates none
            [(apiUrl, FetchOutcome.resp s)]
  | none => probeLoop net baseUrl model cache apiPathTemplates none []

/-- A probe outcome that does not stop the loop: a 404 response or a thrown
transport error. -/
def isMissB (o : FetchOutcome) : Bool :=
  match o with
  | FetchOutcome.resp s => s == 404
  | FetchOutcome.err _ => true

/-- The requests a list of templates gives rise to, in order (statement-side
helper used to phrase trace properties). -/
def probeTrace (net : String → FetchOutcome) (baseUrl model : String)
    (ts : List String) : List (String × FetchOutcome) :=
  ts.map (fun t => (resolveUrl t baseUrl model, net (resolveUrl t baseUrl model)))

/-- The last transport-error message observed while probing a list of
templates (statement-side helper). -/
def lastTransportError (net : String → FetchOutcome) (baseUrl model : String)
    (ts : List String) (acc : Option String) : Option String :=
  ts.foldl (fun a t =>
    match net (resolveUrl t baseUrl model) with
    | FetchOutcome.err m => some m
    | FetchOutcome.resp _ => a) acc

/-! ## Response normalization (`processApiResponse`, worker lines 566-651)

A provider response is modelled by the fields the function actually reads:
HTTP status and status text, whether the JSON body parses, the candidates
array with finish reason and content parts, and the top-level error object.
JS truthiness of a string field is `≠ ""`. -/

/-- Substring test on the character lists of two strings (the JS
`String.prototype.includes`). -/
def containsSub (l pat : List Char) : Bool :=
  match l with
  | [] => pat.isEmpty
  | _ :: t => pat.isPrefixOf l || containsSub t pat

/-- `s.includes(pat)` (worker line 220). -/
def strContains (s pat : String) : Bool := containsSub s.data pat.data

/-- JS `a || b` on an optional string field: the default is taken when the
field is absent or the empty string (falsy). -/
def orDefault (o : Option String) (d : String) : String :=
  match o with
  | some s => if s = "" then d else s
  | none => d

/-- One entry of `candidate.content.parts`: the three fields the code reads.
The binary payloads carry an optional mime type and the base64 data. -/
structure ResponsePart where
  inlineData : Option (Option String × String) := none
  inline_data : Option (Option String × String) := none
  text : Option String := none
deriving Repr, DecidableEq

/-- One entry of `data.candidates`; `parts` is `none` when `candidate.content`
or `candidate.content.parts` is absent. -/
structure ResponseCandidate where
  finishReason : Option String := none
  parts : Option (List ResponsePart) := none
deriving Repr, DecidableEq

/-- The `data.error` object: `message` and stringified `details`. -/
structure ResponseErrObj where
  message : Option String := none
  details : Option String := none
deriving Repr, DecidableEq

/-- The raw response handed to `processApiResponse`. `jsonParses` states
whether `response.json()` of a non-ok body succeeds (worker line 572). -/
structure ApiResponse where
  status : Nat
  statusText : String := ""
  jsonParses : Bool := true
  candidates : List ResponseCandidate := []
  errorField : Option ResponseErrObj := none
deriving Repr, DecidableEq

/-- `response.ok`: status in the 2xx range. -/
def responseOk (status : Nat) : Bool := 200 ≤ status && status ≤ 299

/-- The message built for a non-ok response (worker lines 567-607). -/
def httpErrorMessage (r : ApiResponse) : String :=
  if r.jsonParses then
    let base :=
      if r.status = 500 then
        "API服务器内部错误。请检查：\n1. API Key是否有效且具有图像生成权限\n2. 代理服务器是否正常运行\n3. 是否超出了API调用限制"
      else if r.status = 429 then "API调用频率超限，请稍后再试"
      else if r.status = 401 then "API Key无效或已过期，请更新API Key"
      else if r.status = 403 then "API Key没有图像生成权限，请检查API Key设置"
      else
        orDefault (r.errorField.bind ResponseErrObj.message)
          ("HTTP " ++ toString r.status ++ ": " ++ r.statusText)
    let details :=
      match r.errorField.bind ResponseErrObj.details with
      | some d => "\n详细信息: " ++ d
      | none => ""
    base ++ details
  else
    if r.status = 500 then
      "API服务器内部错误 (500)。可能的原因：\n1. 代理服务器配置错误\n2. API Key权限不足\n3. 请求格式不正确"
    else "HTTP " ++ toString r.status ++ ": " ++ r.statusText

/-- The two classified stop-reason messages (worker lines 618 and 622). -/
def safetyBlockedMessage : String :=
  "SAFETY_BLOCKED:图像生成被安全过滤器阻止，请尝试其他描述"

/-- The explicit refusal message, tagged distinctly from the generic safety
block. -/
def prohibitedContentMessage : String :=
  "PROHIBITED_CONTENT:内容被模型拒绝生成，可能包含不当内容。请修改提示词后重试。"

/-- The scan over `candidate.content.parts` (worker lines 626-635): per part,
the camel-cased `inlineData` field is checked first, then the snake-cased
`inline_data`; a hit builds a data URI with mime type defaulted to
`image/png`; the `data` payload must be truthy (non-empty). -/
def scanParts (parts : List ResponsePart) : Option String :=
  match parts with
  | [] => none
  | p :: rest =>
    match p.inlineData with
    | some (mt, d) =>
      if d ≠ "" then some ("data:" ++ orDefault mt "image/png" ++ ";base64," ++ d)
      else scanPartsSnake p rest
    | none => scanPartsSnake p rest
where
  scanPartsSnake (p : ResponsePart) (rest : List ResponsePart) : Option String :=
    match p.inline_data with
    | some (mt, d) =>
      if d ≠ "" then some ("data:" ++ orDefault mt "image/png" ++ ";base64," ++ d)
      else scanParts rest
    | none => scanParts rest

/-- The text part found by the fallback scan (worker lines 643-648): the first
part whose `text` field is truthy. -/
def findTextPart (parts : List ResponsePart) : Option String :=
  match parts with
  | [] => none
  | p :: rest =>
    match p.text with
    | some t => if t ≠ "" then some t else findTextPart rest
    | none => findTextPart rest

/-- `processApiResponse` (worker lines 566-651): non-ok statuses are turned
into classified thrown messages; an ok response is checked for a blocking
finish reason, then scanned for a binary artifact, then for a top-level
error, then for a text-only reply, and finally rejected as malformed. -/
def processApiResponse (r : ApiResponse) : Except String String :=
  if ¬ responseOk r.status then Except.error (httpErrorMessage r)
  else
    let afterScan : Except String String :=
      match r.errorField with
      | some e => Except.error (orDefault e.message "生成图像时发生错误")
      | none =>
        match r.candidates.head?.bind ResponseCandidate.parts with
        | some parts =>
          match findTextPart parts with
          | some t =>
            Except.error ("模型返回了文本响应而非图像: " ++ t.take 200 ++ "...")
          | none =>
            Except.error "API 返回了意外的响应格式。请检查 API Key 是否有图像生成权限，或者模型是否支持图像生成。"
        | none =>
          Except.error "API 返回了意外的响应格式。请检查 API Key 是否有图像生成权限，或者模型是否支持图像生成。"
    match r.candidates with
    | c :: _ =>
      if c.finishReason = some "SAFETY" then Except.error safetyBlockedMessage
      else if c.finishReason = some "PROHIBITED_CONTENT" then
        Except.error prohibitedContentMessage
      else
        match c.parts with
        | some parts =>
          match scanParts parts with
          | some uri => Except.ok uri
          | none => afterScan
        | none => afterScan
    | [] => afterScan

/-! ## The worker (`AIGenerationWorker.processTask`, worker lines 69-249)

`processTask` is modelled as a pure function from the in-flight set, the task
and an environment of oracles (board presence, configured key, dispatch
outcome, placeholder-replacement outcome) to the ordered list of observable
events it performs and the final in-flight set. The enclosing
`try`/`catch`/`finally` of the source makes the function total: a thrown
internal error is recorded by `processTaskTry` and converted by the catch
branch, never propagated. -/

/-- Task status as in `use-ai-generation-tasks.ts`. -/
inductive TaskStatus where
  | pending
  | generating
  | completed
  | error
deriving Repr, DecidableEq

/-- One element of `task.selectedImages`. -/
structure SelectedImage where
  url : String
  base64 : String
  mimeType : String
deriving Repr, DecidableEq

/-- The `AIGenerationTask` interface (use-ai-generation-tasks.ts lines 16-34).
Optional TS fields become `Option`. -/
structure AIGenerationTask where
  id : String
  status : TaskStatus := TaskStatus.pending
  prompt : String := ""
  selectedImages : List SelectedImage := []
  placeholderId : Option String := none
  sourceImageIds : Option (List String) := none
  generatedImageUrl : Option String := none
  errorMsg : Option String := none
  createdAt : Nat := 0
  completedAt : Option Nat := none
  progress : Option ℚ := none
  progressStage : Option String := none
deriving Repr, DecidableEq

/-- The oracles `processTask` consults: whether `setBoard` was called, the
configured API key (empty string when missing), the outcome of
`generateImageWithGemini`, and the outcome of `replacePlaceholderWithImage`
(`Except.error` models a throw from the replacement block). -/
structure WorkerEnv where
  hasBoard : Bool := true
  apiKey : String := ""
  genResult : Except String String := Except.error ""
  replaceOutcome : Except String (Option String) := Except.ok none
deriving Repr

/-- The externally observable actions of `processTask`, in program order. -/
inductive WorkerEvent where
  | statusUpdate (taskId : String) (status : TaskStatus) (progress : Option ℚ)
      (progressStage : Option String) (generatedImageUrl : Option String)
      (errorMsg : Option String)
  | placeholderProgress (taskId : String) (progress : ℚ) (stage : String)
  | sleep (ms : Nat)
  | dispatchGenerate (prompt : String)
  | replacePlaceholder (taskId : String) (url : String)
  | scheduleArrowCreation (delayMs : Nat) (sourceImageIds : List String) (targetImageId : String)
  | showProhibitedPlaceholder (taskId : String) (prompt : String)
deriving Repr, DecidableEq

/-- The `if (this.board) updatePlaceholderProgress(...)` pattern repeated at
each checkpoint. -/
def phEvents (env : WorkerEnv) (task : AIGenerationTask) (p : ℚ) (stage : String) :
    List WorkerEvent :=
  if env.hasBoard then [WorkerEvent.placeholderProgress task.id p stage] else []

/-- The `try` block of `processTask` (worker lines 82-213): the events
performed so far, paired with `some e` when the block throws `e` at that
point. Checkpoints 0.2/0.4/0.6 precede the dispatch, 0.9 and the completed
update with progress 1.0 follow it; a successful generation with a board
replaces the placeholder and, when `sourceImageIds` is non-empty, schedules
arrow creation after a 100 ms settle delay. A throw from the replacement
block is caught locally (line 207) and a `null` replacement returns early
(line 174), in both cases leaving the task completed. -/
def processTaskTry (task : AIGenerationTask) (env : WorkerEnv) :
    List WorkerEvent × Option String :=
  let events1 :=
    [WorkerEvent.statusUpdate task.id TaskStatus.generating (some 0.2)
      (some "初始化请求...") none none] ++ phEvents env task 0.2 "初始化请求..."
  if env.apiKey = "" then
    (events1, some "请先配置 Gemini API Key")
  else
    let events2 := events1
      ++ [WorkerEvent.statusUpdate task.id TaskStatus.generating (some 0.4)
            (some "连接API服务器...") none none]
      ++ phEvents env task 0.4 "连接API服务器..."
      ++ [WorkerEvent.sleep 500]
      ++ [WorkerEvent.statusUpdate task.id TaskStatus.generating (some 0.6)
            (some "发送生成请求...") none none]
      ++ phEvents env task 0.6 "发送生成请求..."
      ++ [WorkerEvent.dispatchGenerate task.prompt]
    match env.genResult with
    | Except.error e => (events2, some e)
    | Except.ok url =>
      let events3 := events2
        ++ [WorkerEvent.statusUpdate task.id TaskStatus.generating (some 0.9)
              (some "处理生成的图像...") none none]
        ++ phEvents env task 0.9 "处理生成的图像..."
        ++ [WorkerEvent.statusUpdate task.id TaskStatus.completed (some 1)
              (some "生成完成!") (some url) none]
      if env.hasBoard ∧ url ≠ "" then
        let events4 := events3
          ++ [WorkerEvent.sleep 100, WorkerEvent.replacePlaceholder task.id url]
        match env.replaceOutcome with
        | Except.error _ => (events4, none)
        | Except.ok none => (events4, none)
        | Except.ok (some newImageId) =>
          match task.sourceImageIds with
          | some (sid :: sids) =>
            (events4 ++ [WorkerEvent.scheduleArrowCreation 100 (sid :: sids) newImageId],
             none)
          | _ => (events4, none)
      else (events3, none)

/-- The `catch` branch of `processTask` (worker lines 214-245): an error whose
message includes the `PROHIBITED_CONTENT:` tag sets the task to error with
the refusal message and, when a board exists, asks for the refusal visual;
every other error only sets the task to error with its message. -/
def classifyCatch (task : AIGenerationTask) (env : WorkerEnv) (e : String) :
    List WorkerEvent :=
  if strContains e "PROHIBITED_CONTENT:" then
    [WorkerEvent.statusUpdate task.id TaskStatus.error none none none
      (some "内容被模型拒绝生成")]
    ++ (if env.hasBoard then
          [WorkerEvent.showProhibitedPlaceholder task.id
            (if task.prompt = "" then "生成请求" else task.prompt)]
        else [])
  else
    [WorkerEvent.statusUpdate task.id TaskStatus.error none none none (some e)]

/-- `processTask` (worker lines 69-249): the single-flight check against
`processingQueue`, the guarded body, the classifying catch and the `finally`
that removes the id from the in-flight set. Returns the event list and the
final in-flight set. -/
def processTask (queue : List String) (task : AIGenerationTask) (env : WorkerEnv) :
    List WorkerEvent × List String :=
  if task.id ∈ queue then ([], queue)
  else
    let queue1 := task.id :: queue
    let body := processTaskTry task env
    let events :=
      match body.2 with
      | some e => body.1 ++ classifyCatch task env e
      | none => body.1
    (events, queue1.erase task.id)

/-- The `(status, progress)` pairs of the `onStatusUpdate` calls, in order. -/
def statusTrace (events : List WorkerEvent) : List (TaskStatus × Option ℚ) :=
  events.filterMap fun e =>
    match e with
    | WorkerEvent.statusUpdate _ st p _ _ _ => some (st, p)
    | _ => none

/-- The progress values reported while the status is `generating`, in order. -/
def generatingProgress (events : List WorkerEvent) : List ℚ :=
  events.filterMap fun e =>
    match e with
    | WorkerEvent.statusUpdate _ TaskStatus.generating (some p) _ _ _ => some p
    | _ => none

/-- Number of dispatches to `generateImageWithGemini` in an event list. -/
def dispatchCount (events : List WorkerEvent) : Nat :=
  (events.filter fun e =>
    match e with
    | WorkerEvent.dispatchGenerate _ => true
    | _ => false).length

/-- Number of requests to render the refusal visual in an event list. -/
def showCount (events : List WorkerEvent) : Nat :=
  (events.filter fun e =>
    match e with
    | WorkerEvent.showProhibitedPlaceholder _ _ => true
    | _ => false).length

/-- The last `onStatusUpdate` call of an event list: task id, status and the
error field it carried. -/
def finalStatusUpdate (events : List WorkerEvent) :
    Option (String × TaskStatus × Option String) :=
  (events.filterMap fun e =>
    match e with
    | WorkerEvent.statusUpdate tid st _ _ _ em => some (tid, st, em)
    | _ => none).getLast?

/-! ## Placeholder registry and visuals (ai-generation-placeholder.ts)

The drawing surface is a list of nodes in insertion order (`board.children`);
`DrawTransforms.insertImage` and `Transforms.insertNode` append, and the
code reads the appended node back as the last element. Node ids are
explicit parameters standing for the ids the surface generates. The
base64-encoded placeholder SVG data URL is abstracted into the
progress-dependent quantities it embeds: the displayed prompt, the progress
bar fill width and the rounded percent label. -/

/-- A Point: `[x, y]`. -/
abbrev BoardPoint := ℚ × ℚ

/-- The url of an image node: a generated artifact URI, or the placeholder
SVG data URL abstracted by the values baked into its markup
(`displayPrompt`, `progressFill`, `progressPercent`). -/
inductive ImageUrl where
  | artifact (url : String)
  | placeholderSvg (displayPrompt : String) (progressFill : ℚ) (progressPercent : ℤ)
deriving Repr, DecidableEq

/-- A node of the surface: an image with its two corner points and url, or a
bound connector line. -/
inductive BoardNode where
  | image (id : String) (p1 p2 : BoardPoint) (url : ImageUrl)
  | line (id : String) (sourceBoundId : String) (sourceConnection : BoardPoint)
      (targetBoundId : String) (targetConnection : BoardPoint) (p1 p2 : BoardPoint)
deriving Repr, DecidableEq

/-- `element.id`. -/
def nodeId (n : BoardNode) : String :=
  match n with
  | BoardNode.image i _ _ _ => i
  | BoardNode.line i _ _ _ _ _ _ => i

/-- `element.type === 'image'` and `PlaitDrawElement.isImage(element)`. -/
def isImageNode (n : BoardNode) : Bool :=
  match n with
  | BoardNode.image _ _ _ _ => true
  | BoardNode.line _ _ _ _ _ _ _ => false

/-- `element.points[0]`. -/
def nodeP1 (n : BoardNode) : BoardPoint :=
  match n with
  | BoardNode.image _ p _ _ => p
  | BoardNode.line _ _ _ _ _ p _ => p

/-- `element.points[1]`. -/
def nodeP2 (n : BoardNode) : BoardPoint :=
  match n with
  | BoardNode.image _ _ p _ => p
  | BoardNode.line _ _ _ _ _ _ p => p

/-- The placeholder registry (placeholder.ts line 6): a `Map` from element id
to task id, modelled as an association list with overwriting insertion. -/
abbrev Registry := List (String × String)

namespace PlaceholderRegistry

/-- `PlaceholderRegistry.register(elementId, taskId)`. -/
def register (elementId taskId : String) (reg : Registry) : Registry :=
  (elementId, taskId) :: reg.filter (fun p => p.1 ≠ elementId)

/-- `PlaceholderRegistry.unregister(elementId)`. -/
def unregister (elementId : String) (reg : Registry) : Registry :=
  reg.filter (fun p => p.1 ≠ elementId)

/-- `PlaceholderRegistry.getTaskId(elementId)`. -/
def getTaskId (elementId : String) (reg : Registry) : Option String :=
  reg.lookup elementId

/-- `PlaceholderRegistry.isPlaceholder(elementId)`. -/
def isPlaceholder (elementId : String) (reg : Registry) : Bool :=
  (reg.lookup elementId).isSome

end PlaceholderRegistry

/-- `DrawTransforms.insertImage(board, {url, width, height}, point)`: appends
an image node spanning `point` to `point + (width, height)`, with the id the
surface generates for it. -/
def insertImage (board : List BoardNode) (url : ImageUrl) (width height : ℚ)
    (point : BoardPoint) (freshId : String) : List BoardNode :=
  board ++ [BoardNode.image freshId point (point.1 + width, point.2 + height) url]

/-- The prompt text baked into the placeholder SVG (placeholder.ts lines
92-94): truncated to 47 characters plus an ellipsis when longer than 50,
defaulted when absent or empty. -/
def displayPromptOf (prompt : Option String) : String :=
  match prompt with
  | some p =>
    if p = "" then "AI 图像生成"
    else if 50 < p.length then p.take 47 ++ "..." else p
  | none => "AI 图像生成"

/-- `createAIPlaceholder` (placeholder.ts lines 33-256). `selected` is the
current selection of the surface (`getSelectedElements(board)`). Size comes
from the explicit positive arguments, else from the last selected image with
positive extent, else defaults to 200 by 200; the insertion point comes from
the explicit argument, else 150 px to the right of the last selected image,
else of the last image on the board, else (300, 200). The new node is
appended and registered to the task. Returns the new board, registry and
node. -/
def createAIPlaceholder (board selected : List BoardNode) (reg : Registry)
    (taskId : String) (targetPoint : Option BoardPoint) (width height : Option ℚ)
    (prompt : Option String) (progress : Option ℚ) (freshId : String) :
    List BoardNode × Registry × BoardNode :=
  let selectedImages := selected.filter isImageNode
  let size : ℚ × ℚ :=
    match width, height with
    | some w, some h =>
      if 0 < w ∧ 0 < h then (w, h)
      else sizeFromSelection selectedImages
    | _, _ => sizeFromSelection selectedImages
  let p := progress.getD 0
  let progressWidth := max 100 (size.1 * 0.6)
  let url := ImageUrl.placeholderSvg (displayPromptOf prompt) (progressWidth * p)
    (round (p * 100))
  let insertPoint : BoardPoint :=
    match targetPoint with
    | some pt => pt
    | none =>
      match selectedImages.getLast? with
      | some lastImage => ((nodeP2 lastImage).1 + 150, (nodeP1 lastImage).2)
      | none =>
        match (board.filter isImageNode).getLast? with
        | some lastImage => ((nodeP2 lastImage).1 + 150, (nodeP1 lastImage).2)
        | none => (300, 200)
  let board1 := insertImage board url size.1 size.2 insertPoint freshId
  let newNode := BoardNode.image freshId insertPoint
    (insertPoint.1 + size.1, insertPoint.2 + size.2) url
  (board1, PlaceholderRegistry.register freshId taskId reg, newNode)
where
  /-- The fallback sizing from the last selected image (lines 59-83). -/
  sizeFromSelection (selectedImages : List BoardNode) : ℚ × ℚ :=
    match selectedImages.getLast? with
    | some lastImage =>
      let iw := (nodeP2 lastImage).1 - (nodeP1 lastImage).1
      let ih := (nodeP2 lastImage).2 - (nodeP1 lastImage).2
      if 0 < iw ∧ 0 < ih then (iw, ih) else (200, 200)
    | none => (200, 200)

/-- `findPlaceholderByTaskId` (placeholder.ts lines 261-286): the first node
of `board.children` with a truthy id registered to the task. -/
def findPlaceholderByTaskId (board : List BoardNode) (reg : Registry)
    (taskId : String) : Option BoardNode :=
  board.find? fun n =>
    nodeId n ≠ "" && PlaceholderRegistry.getTaskId (nodeId n) reg == some taskId

/-- `replacePlaceholderWithImage` (placeholder.ts lines 292-377): a missing
placeholder returns `none` without throwing; otherwise the artifact is
inserted at the position and size of the found placeholder, that placeholder
is removed — a removal failure (`removeFails`) is caught and does not block
the return value — its registry entry is dropped, and the fresh node id is
returned. A throw from the insertion itself (`insertFails`) is caught by the
outer handler, which still unregisters the found placeholder and returns
`none`. -/
def replacePlaceholderWithImage (board : List BoardNode) (reg : Registry)
    (taskId generatedImageUrl : String) (insertFails removeFails : Bool)
    (freshId : String) : List BoardNode × Registry × Option String :=
  match findPlaceholderByTaskId board reg taskId with
  | none => (board, reg, none)
  | some ph =>
    let position := nodeP1 ph
    let width := (nodeP2 ph).1 - (nodeP1 ph).1
    let height := (nodeP2 ph).2 - (nodeP1 ph).2
    if insertFails then
      (board, PlaceholderRegistry.unregister (nodeId ph) reg, none)
    else
      let board1 := insertImage board (ImageUrl.artifact generatedImageUrl)
        width height position freshId
      let board2 :=
        if removeFails then board1
        else board1.filter (fun n => nodeId n ≠ nodeId ph)
      (board2, PlaceholderRegistry.unregister (nodeId ph) reg, some freshId)

/-- The connection element built for one source image (placeholder.ts lines
458-523): centers, dominant direction, the facing connection points, and the
id `connection_<now>_<index>`. -/
def mkConnection (now index : Nat) (sourceImage targetImage : BoardNode) : BoardNode :=
  let sourceCenter : BoardPoint :=
    (((nodeP1 sourceImage).1 + (nodeP2 sourceImage).1) / 2,
     ((nodeP1 sourceImage).2 + (nodeP2 sourceImage).2) / 2)
  let targetCenter : BoardPoint :=
    (((nodeP1 targetImage).1 + (nodeP2 targetImage).1) / 2,
     ((nodeP1 targetImage).2 + (nodeP2 targetImage).2) / 2)
  let dx := targetCenter.1 - sourceCenter.1
  let dy := targetCenter.2 - sourceCenter.2
  let sourceConnection : BoardPoint :=
    if |dy| < |dx| then (if 0 < dx then (1, 0.5) else (0, 0.5))
    else (if 0 < dy then (0.5, 1) else (0.5, 0))
  let targetConnection : BoardPoint :=
    if |dy| < |dx| then (if 0 < dx then (0, 0.5) else (1, 0.5))
    else (if 0 < dy then (0.5, 0) else (0.5, 1))
  BoardNode.line ("connection_" ++ toString now ++ "_" ++ toString index)
    (nodeId sourceImage) sourceConnection (nodeId targetImage) targetConnection
    sourceCenter targetCenter

/-- The source images found on the board (placeholder.ts lines 409-431): the
image nodes whose id occurs in `sourceImageIds`, in board order. -/
def foundSourceImages (board : List BoardNode) (sourceImageIds : List String) :
    List BoardNode :=
  board.filter (fun n => isImageNode n && sourceImageIds.contains (nodeId n))

/-- The target image found on the board: the loop keeps overwriting
`targetImage`, so the last matching image wins. -/
def foundTargetImage (board : List BoardNode) (targetImageId : String) :
    Option BoardNode :=
  (board.filter (fun n => isImageNode n && nodeId n == targetImageId)).getLast?

/-- How many image nodes of the board carry the given id (statement-side
helper for the one-edge-per-source-id count). -/
def imageCountOf (board : List BoardNode) (id : String) : Nat :=
  (board.filter (fun n => isImageNode n && nodeId n == id)).length

/-- `createSmartArrowConnection` (placeholder.ts lines 383-552): nothing
happens without source ids, a target id, found sources or a found target;
otherwise one connection per found source image is built and appended, each
insertion guarded by its own `try`/`catch` — `failAt` tells which insertions
throw, and a failed index is skipped without aborting the remaining ones. -/
def createSmartArrowConnection (board : List BoardNode)
    (sourceImageIds : List String) (targetImageId : String)
    (failAt : Nat → Bool) (now : Nat) : List BoardNode :=
  if sourceImageIds = [] then board
  else if targetImageId = "" then board
  else
    let sourceImages := foundSourceImages board sourceImageIds
    match foundTargetImage board targetImageId with
    | none => board
    | some targetImage =>
      if sourceImages = [] then board
      else
        sourceImages.enum.foldl
          (fun acc ip =>
            if failAt ip.1 then acc else acc ++ [mkConnection now ip.1 ip.2 targetImage])
          board

/-- `updatePlaceholderProgress` (placeholder.ts lines 557-626): a missing
placeholder returns `false` and changes nothing; otherwise the old
placeholder is removed and unregistered and a fresh one is created at the
same position and size with the progress clamped to `[0, 1]`
(`Math.max(0, Math.min(1, progress))`), then registered; a throw from the
surface operations (`surfaceFails`) is caught and yields `false`. The
original prompt is the default label: the source tries to re-parse it from
the data URL by searching for the literal `displayPrompt`, which never
occurs in the base64-encoded URL, so the branch is dead. -/
def updatePlaceholderProgress (board selected : List BoardNode) (reg : Registry)
    (taskId : String) (progress : ℚ) (surfaceFails : Bool) (freshId : String) :
    Bool × List BoardNode × Registry :=
  match findPlaceholderByTaskId board reg taskId with
  | none => (false, board, reg)
  | some ph =>
    if surfaceFails then (false, board, reg)
    else
      let width := (nodeP2 ph).1 - (nodeP1 ph).1
      let height := (nodeP2 ph).2 - (nodeP1 ph).2
      let position := nodeP1 ph
      let originalPrompt := "AI 图像生成"
      let board1 := board.filter (fun n => nodeId n ≠ nodeId ph)
      let reg1 := PlaceholderRegistry.unregister (nodeId ph) reg
      let created := createAIPlaceholder board1 selected reg1 taskId (some position)
        (some width) (some height) (some originalPrompt)
        (some (max 0 (min 1 progress))) freshId
      let reg2 := PlaceholderRegistry.register (nodeId created.2.2) taskId created.2.1
      (true, created.1, reg2)

/-! ## The task store (`use-ai-generation-tasks.ts`, lines 68-84) -/

/-- The partial update object accepted by `updateTaskStatus`
(`Partial<Pick<AIGenerationTask, ...>>`); an absent key leaves the stored
field untouched. -/
structure TaskUpdates where
  generatedImageUrl : Option String := none
  errorMsg : Option String := none
  placeholderId : Option String := none
  progress : Option ℚ := none
  progressStage : Option String := none
deriving Repr, DecidableEq

/-- JS object spread of an optional field: a present key overrides. -/
def overrideWith (new old : Option α) : Option α :=
  match new with
  | some v => some v
  | none => old

/-- The merge `{...task, status, ...updates, ...(status === 'completed' &&
{completedAt: Date.now()})}` (lines 74-81). -/
def mergeTask (t : AIGenerationTask) (status : TaskStatus) (u : TaskUpdates)
    (now : Nat) : AIGenerationTask :=
  { t with
    status := status
    generatedImageUrl := overrideWith u.generatedImageUrl t.generatedImageUrl
    errorMsg := overrideWith u.errorMsg t.errorMsg
    placeholderId := overrideWith u.placeholderId t.placeholderId
    progress := overrideWith u.progress t.progress
    progressStage := overrideWith u.progressStage t.progressStage
    completedAt := if status = TaskStatus.completed then some now else t.completedAt }

/-- `updateTaskStatus` (lines 68-84): maps the merge over the stored list,
touching only the task with the given id. -/
def updateTaskStatus (tasks : List AIGenerationTask) (taskId : String)
    (status : TaskStatus) (u : TaskUpdates) (now : Nat) : List AIGenerationTask :=
  tasks.map fun t => if t.id = taskId then mergeTask t status u now else t

/-! ## Concrete fixtures used by witnesses and counterexamples -/

/-- A concrete network oracle: the cached generic path 404s, the first probe
template throws a transport error, the second probe template succeeds, every
other URL 404s. -/
def c1net : String → FetchOutcome := fun url =>
  if url = "https://p/api/generate" then FetchOutcome.resp 404
  else if url = "https://p/models/m:generateContent" then FetchOutcome.err "ECONNREFUSED"
  else if url = "https://p/v1beta/models/m:generateContent" then FetchOutcome.resp 200
  else FetchOutcome.resp 404

/-- A concrete network oracle on which every candidate misses: the first
template throws, all others 404. -/
def c1netAllMiss : String → FetchOutcome := fun url =>
  if url = "https://p/models/m:generateContent" then FetchOutcome.err "ECONNREFUSED"
  else FetchOutcome.resp 404

/-- A concrete task with two source images, used by the worker witnesses. -/
def wtask : AIGenerationTask :=
  ⟨"t1", TaskStatus.pending, "a cat", [], none, some ["s1", "s2"], none, none, 0,
   none, none, none⟩

/-- A concrete environment on which generation succeeds and the placeholder
replacement returns a fresh node id. -/
def wenvOk : WorkerEnv :=
  ⟨true, "key", Except.ok "data:image/png;base64,AAA", Except.ok (some "new1")⟩

/-- A concrete environment with no configured API key. -/
def wenvNoKey : WorkerEnv := ⟨true, "", Except.error "", Except.ok none⟩

/-- A concrete environment whose dispatch throws the explicit refusal. -/
def wenvProhibited : WorkerEnv :=
  ⟨true, "key", Except.error prohibitedContentMessage, Except.ok none⟩

/-- A concrete environment whose dispatch throws the generic safety block. -/
def wenvSafety : WorkerEnv :=
  ⟨true, "key", Except.error safetyBlockedMessage, Except.ok none⟩

/-- A concrete ok response whose first candidate reports the explicit
refusal stop reason. -/
def c4resp : ApiResponse := ⟨200, "", true, [⟨some "PROHIBITED_CONTENT", none⟩], none⟩

/-- A concrete ok response whose first candidate reports the generic safety
stop reason. -/
def c4respSafety : ApiResponse := ⟨200, "", true, [⟨some "SAFETY", none⟩], none⟩

/-- A concrete board with two source images and a target image. -/
def c9board : List BoardNode :=
  [BoardNode.image "s1" (0, 0) (10, 10) (ImageUrl.artifact "a"),
   BoardNode.image "s2" (0, 20) (10, 30) (ImageUrl.artifact "b"),
   BoardNode.image "tgt1" (100, 0) (110, 10) (ImageUrl.artifact "c")]

/-- The second source image of `c9board`. -/
def c9s2 : BoardNode := BoardNode.image "s2" (0, 20) (10, 30) (ImageUrl.artifact "b")

/-- The target image of `c9board`. -/
def c9tgt : BoardNode := BoardNode.image "tgt1" (100, 0) (110, 10) (ImageUrl.artifact "c")

/-- A board carrying two placeholder images for the same task. -/
def c6board : List BoardNode :=
  [BoardNode.image "p1" (0, 0) (10, 10) (ImageUrl.artifact "old1"),
   BoardNode.image "p2" (100, 100) (110, 110) (ImageUrl.artifact "old2")]

/-- Both placeholders of `c6board` are registered to task `t`; `p2` was
registered (created) after `p1`. -/
def c6reg : Registry := [("p1", "t"), ("p2", "t")]

/-- The first placeholder of `c6board` in board order. -/
def c6p1 : BoardNode := BoardNode.image "p1" (0, 0) (10, 10) (ImageUrl.artifact "old1")

/-- A stored task list with one pending task. -/
def c7tasks : List AIGenerationTask :=
  [⟨"t1", TaskStatus.pending, "p", [], none, none, none, none, 0, none, none, none⟩]

/-- A board with one registered placeholder for task `t`. -/
def c10board : List BoardNode :=
  [BoardNode.image "p1" (0, 0) (10, 10) (ImageUrl.artifact "x")]

/-- The registry of `c10board`. -/
def c10reg : Registry := [("p1", "t")]

/-! ## Lemmas about the probing loop -/

/-- The probing loop only appends to the request trace it is given. -/
theorem probeLoop_trace_extends (net : String → FetchOutcome) (baseUrl model : String)
    (cache : Cache) (templates : List String) (lastError : Option String)
    (trace : List (String × FetchOutcome)) :
    ∃ tl, (probeLoop net baseUrl model cache templates lastError trace).trace = trace ++ tl := by
  induction templates generalizing lastError trace with
  | nil => exact ⟨[], by simp [probeLoop]⟩
  | cons t rest ih =>
    cases hnet : net (resolveUrl t baseUrl model) with
    | err m =>
      obtain ⟨tl, htl⟩ :=
        ih (some m) (trace ++ [(resolveUrl t baseUrl model, FetchOutcome.err m)])
      refine ⟨(resolveUrl t baseUrl model, FetchOutcome.err m) :: tl, ?_⟩
      simp only [probeLoop, hnet]
      rw [htl]; simp
    | resp s =>
      by_cases hs : s = 404
      · subst hs
        obtain ⟨tl, htl⟩ :=
          ih lastError (trace ++ [(resolveUrl t baseUrl model, FetchOutcome.resp 404)])
        refine ⟨(resolveUrl t baseUrl model, FetchOutcome.resp 404) :: tl, ?_⟩
        simp only [probeLoop, hnet]
        rw [if_neg (by simp), htl]; simp
      · refine ⟨[(resolveUrl t baseUrl model, FetchOutcome.resp s)], ?_⟩
        simp [probeLoop, hnet, hs]

/-- When every remaining template 404s or throws, the loop issues every
request in order, leaves the cache untouched and throws the last observed
transport error (or the literal fallback). -/
theorem probeLoop_all_miss (net : String → FetchOutcome) (baseUrl model : String)
    (cache : Cache) (templates : List String) (lastError : Option String)
    (trace : List (String × FetchOutcome))
    (h : ∀ t ∈ templates, isMissB (net (resolveUrl t baseUrl model)) = true) :
    probeLoop net baseUrl model cache templates lastError trace =
      ⟨trace ++ probeTrace net baseUrl model templates, cache,
       Except.error ((lastTransportError net baseUrl model templates lastError).getD
         "所有API路径都尝试失败")⟩ := by
  induction templates generalizing lastError trace with
  | nil => simp [probeLoop, probeTrace, lastTransportError]
  | cons t rest ih =>
    have ht := h t (by simp)
    have hrest : ∀ u ∈ rest, isMissB (net (resolveUrl u baseUrl model)) = true :=
      fun u hu => h u (by simp [hu])
    cases hnet : net (resolveUrl t baseUrl model) with
    | err m =>
      simp only [probeLoop, hnet]
      rw [ih (some m) _ hrest]
      simp [probeTrace, lastTransportError, hnet]
    | resp s =>
      have hs : s = 404 := by
        rw [hnet] at ht; simpa [isMissB] using ht
      subst hs
      simp only [probeLoop, hnet]
      rw [if_neg (by simp), ih lastError _ hrest]
      simp [probeTrace, lastTransportError, hnet]

/-- The first template whose response is not a 404 stops the loop: its
template is written to the cache over the original entry and its response is
accepted, after the misses before it were each probed once in order. -/
theorem probeLoop_first_hit (net : String → FetchOutcome) (baseUrl model : String)
    (cache : Cache) (pre post : List String) (t : String) (s : Nat)
    (lastError : Option String) (trace : List (String × FetchOutcome))
    (hpre : ∀ u ∈ pre, isMissB (net (resolveUrl u baseUrl model)) = true)
    (ht : net (resolveUrl t baseUrl model) = FetchOutcome.resp s) (hs : s ≠ 404) :
    probeLoop net baseUrl model cache (pre ++ t :: post) lastError trace =
      ⟨trace ++ probeTrace net baseUrl model pre
         ++ [(resolveUrl t baseUrl model, FetchOutcome.resp s)],
       setPathCache baseUrl t cache, Except.ok (t, s)⟩ := by
  induction pre generalizing lastError trace with
  | nil => simp [probeLoop, ht, hs, probeTrace]
  | cons u rest ih =>
    have hu := hpre u (by simp)
    have hrest : ∀ v ∈ rest, isMissB (net (resolveUrl v baseUrl model)) = true :=
      fun v hv => hpre v (by simp [hv])
    cases hnet : net (resolveUrl u baseUrl model) with
    | err m =>
      simp only [List.cons_append, probeLoop, hnet, List.append_eq]
      rw [ih (some m) _ hrest]
      simp [probeTrace, hnet]
    | resp s' =>
      have hs' : s' = 404 := by
        rw [hnet] at hu; simpa [isMissB] using hu
      subst hs'
      simp only [List.cons_append, probeLoop, hnet, List.append_eq]
      rw [if_neg (by simp), ih lastError _ hrest]
      simp [probeTrace, hnet]

/-- Every run of the probing loop either leaves the cache exactly as given, or
writes exactly one entry: the template of a request that came back with a
status other than 404, which is also the accepted result. -/
theorem probeLoop_cache_write (net : String → FetchOutcome) (baseUrl model : String)
    (cache : Cache) (templates : List String) (lastError : Option String)
    (trace : List (String × FetchOutcome)) :
    (probeLoop net baseUrl model cache templates lastError trace).cache = cache
    ∨ ∃ t s, s ≠ 404 ∧ net (resolveUrl t baseUrl model) = FetchOutcome.resp s
        ∧ (probeLoop net baseUrl model cache templates lastError trace).cache
            = setPathCache baseUrl t cache
        ∧ (probeLoop net baseUrl model cache templates lastError trace).result
            = Except.ok (t, s)
        ∧ (resolveUrl t baseUrl model, FetchOutcome.resp s)
            ∈ (probeLoop net baseUrl model cache templates lastError trace).trace := by
  induction templates generalizing lastError trace with
  | nil => left; simp [probeLoop]
  | cons t rest ih =>
    cases hnet : net (resolveUrl t baseUrl model) with
    | err m =>
      simpa only [probeLoop, hnet] using
        ih (some m) (trace ++ [(resolveUrl t baseUrl model, FetchOutcome.err m)])
    | resp s =>
      by_cases hs : s = 404
      · subst hs
        simp only [probeLoop, hnet]
        rw [if_neg (by simp)]
        exact ih lastError (trace ++ [(resolveUrl t baseUrl model, FetchOutcome.resp 404)])
      · right
        exact ⟨t, s, hs, hnet, by simp [probeLoop, hnet, hs]⟩

/-- With a cached template the first request of the dispatch is built from it
(read preferentially, before any fresh probe). -/
theorem dispatch_consults_cache_first (net : String → FetchOutcome)
    (baseUrl model ct : String) (cache : Cache)
    (hc : getCachedTemplate baseUrl cache = some ct) :
    (generateImageDispatch net baseUrl model cache).trace.head? =
      some (resolveUrl ct baseUrl model, net (resolveUrl ct baseUrl model)) := by
  cases hnet : net (resolveUrl ct baseUrl model) with
  | err m => simp [generateImageDispatch, hc, hnet]
  | resp s =>
    by_cases hs : s = 404
    · subst hs
      simp only [generateImageDispatch, hc, hnet]
      rw [if_neg (by simp)]
      obtain ⟨tl, htl⟩ := probeLoop_trace_extends net baseUrl model cache
        apiPathTemplates none
        [(resolveUrl ct baseUrl model, FetchOutcome.resp 404)]
      rw [htl]; simp
    · simp [generateImageDispatch, hc, hnet, hs]

/-! ## Claim C1 -/

/-- Claim C1: for every dispatch of `generateImageWithGeminiAPI` with a cached
endpoint template for `baseUrl`: (1) exactly one request is issued against
the cached template first; (2) any response with status other than 404 is
returned for normalization after that single request, with the cache
untouched; (3) on a 404 from the cached template the candidate list is
probed in its fixed order — the trace is exactly the cached request followed
by the probed prefix — the stale entry is never deleted (the final cache is
a pure overwrite of the original), the first non-404 probe is accepted and
its template written to the cache; (4) if every candidate 404s or throws,
the dispatch throws the last observed transport error (or the literal
fallback message when no transport error occurred) and the cache, stale
entry included, is unchanged. -/
theorem claim1_endpoint_dispatch (net : String → FetchOutcome)
    (baseUrl model cachedTemplate : String) (cache : Cache)
    (hc : getCachedTemplate baseUrl cache = some cachedTemplate) :
    ((generateImageDispatch net baseUrl model cache).trace.head? =
        some (resolveUrl cachedTemplate baseUrl model,
              net (resolveUrl cachedTemplate baseUrl model)))
    ∧ (∀ s, net (resolveUrl cachedTemplate baseUrl model) = FetchOutcome.resp s →
        s ≠ 404 →
        generateImageDispatch net baseUrl model cache =
          ⟨[(resolveUrl cachedTemplate baseUrl model, FetchOutcome.resp s)], cache,
           Except.ok (cachedTemplate, s)⟩)
    ∧ (net (resolveUrl cachedTemplate baseUrl model) = FetchOutcome.resp 404 →
        ∀ pre t post, apiPathTemplates = pre ++ t :: post →
          (∀ u ∈ pre, isMissB (net (resolveUrl u baseUrl model)) = true) →
          ∀ s, net (resolveUrl t baseUrl model) = FetchOutcome.resp s → s ≠ 404 →
            generateImageDispatch net baseUrl model cache =
              ⟨(resolveUrl cachedTemplate baseUrl model, FetchOutcome.resp 404)
                 :: (probeTrace net baseUrl model pre
                     ++ [(resolveUrl t baseUrl model, FetchOutcome.resp s)]),
               setPathCache baseUrl t cache, Except.ok (t, s)⟩)
    ∧ (net (resolveUrl cachedTemplate baseUrl model) = FetchOutcome.resp 404 →
        (∀ u ∈ apiPathTemplates, isMissB (net (resolveUrl u baseUrl model)) = true) →
        (generateImageDispatch net baseUrl model cache).cache = cache
        ∧ (generateImageDispatch net baseUrl model cache).result =
            Except.error
              ((lastTransportError net baseUrl model apiPathTemplates none).getD
                "所有API路径都尝试失败")) := by
  refine ⟨dispatch_consults_cache_first net baseUrl model cachedTemplate cache hc,
    ?_, ?_, ?_⟩
  · intro s hnet hs
    simp [generateImageDispatch, hc, hnet, hs]
  · intro h404 pre t post happ hpre s hts hs
    simp only [generateImageDispatch, hc, h404]
    rw [if_neg (by simp), happ,
      probeLoop_first_hit net baseUrl model cache pre post t s none _ hpre hts hs]
    simp
  · intro h404 hall
    simp only [generateImageDispatch, hc, h404]
    rw [if_neg (by simp), probeLoop_all_miss net baseUrl model cache
      apiPathTemplates none _ hall]
    exact ⟨rfl, rfl⟩

/-- Witness for C1: on the concrete oracle `c1net` with the generic template
cached for `https://p`, the cached request 404s, the first candidate throws,
the second candidate answers 200; the dispatch issues exactly those three
requests in order, overwrites the cache with the second candidate template
and accepts its response. -/
theorem claim1_endpoint_dispatch_witness :
    generateImageDispatch c1net "https://p" "m"
        [("https://p", "{baseUrl}/api/generate")] =
      ⟨[("https://p/api/generate", FetchOutcome.resp 404),
        ("https://p/models/m:generateContent", FetchOutcome.err "ECONNREFUSED"),
        ("https://p/v1beta/models/m:generateContent", FetchOutcome.resp 200)],
       [("https://p", "{baseUrl}/v1beta/models/{model}:generateContent")],
       Except.ok ("{baseUrl}/v1beta/models/{model}:generateContent", 200)⟩ := by
  have h := (claim1_endpoint_dispatch c1net "https://p" "m" "{baseUrl}/api/generate"
      [("https://p", "{baseUrl}/api/generate")] (by decide)).2.2.1
  have h2 := h (by decide) ["{baseUrl}/models/{model}:generateContent"]
      "{baseUrl}/v1beta/models/{model}:generateContent"
      ["{baseUrl}/v1/models/{model}:generateContent", "{baseUrl}/{model}:generateContent",
       "{baseUrl}/api/generate"] (by decide) (by decide) 200 (by decide) (by decide)
  rw [h2]
  rfl

/-! ## Claim C8 -/

/-- Claim C8: invariant of the endpoint cache. For every dispatch, either the
cache is returned exactly as it was, or exactly one entry is written: the
template of a live request of this dispatch that returned a status other
than 404, which is also the accepted result — so no code path writes the
cache for a template whose probe returned 404 or threw. Moreover the cached
entry is consulted before any fresh probe: whenever an entry exists for
`baseUrl`, the first request of the dispatch is built from it. -/
theorem claim8_cache_write_invariant (net : String → FetchOutcome)
    (baseUrl model : String) (cache : Cache) :
    ((generateImageDispatch net baseUrl model cache).cache = cache
      ∨ ∃ t s, s ≠ 404 ∧ net (resolveUrl t baseUrl model) = FetchOutcome.resp s
          ∧ (generateImageDispatch net baseUrl model cache).cache
              = setPathCache baseUrl t cache
          ∧ (generateImageDispatch net baseUrl model cache).result = Except.ok (t, s)
          ∧ (resolveUrl t baseUrl model, FetchOutcome.resp s)
              ∈ (generateImageDispatch net baseUrl model cache).trace)
    ∧ (∀ ct, getCachedTemplate baseUrl cache = some ct →
        (generateImageDispatch net baseUrl model cache).trace.head? =
          some (resolveUrl ct baseUrl model, net (resolveUrl ct baseUrl model))) := by
  constructor
  · rcases hc : getCachedTemplate baseUrl cache with _ | ct
    · simpa only [generateImageDispatch, hc] using
        probeLoop_cache_write net baseUrl model cache apiPathTemplates none []
    · cases hnet : net (resolveUrl ct baseUrl model) with
      | err m => left; simp [generateImageDispatch, hc, hnet]
      | resp s =>
        by_cases hs : s = 404
        · subst hs
          simp only [generateImageDispatch, hc, hnet]
          rw [if_neg (by simp)]
          exact probeLoop_cache_write net baseUrl model cache apiPathTemplates none _
        · left; simp [generateImageDispatch, hc, hnet, hs]
  · intro ct hc
    exact dispatch_consults_cache_first net baseUrl model ct cache hc

/-- Witness for C8: on the concrete all-miss oracle the cache is unchanged
and the cached generic template is consulted first. -/
theorem claim8_cache_write_invariant_witness :
    (generateImageDispatch c1netAllMiss "https://p" "m"
        [("https://p", "{baseUrl}/api/generate")]).cache =
      [("https://p", "{baseUrl}/api/generate")]
    ∧ (generateImageDispatch c1netAllMiss "https://p" "m"
        [("https://p", "{baseUrl}/api/generate")]).trace.head? =
      some ("https://p/api/generate", FetchOutcome.resp 404) := by
  have h := claim8_cache_write_invariant c1netAllMiss "https://p" "m"
    [("https://p", "{baseUrl}/api/generate")]
  refine ⟨?_, ?_⟩
  · rcases h.1 with hsame | ⟨t, s, hs, hnet, hcache, hres, hmem⟩
    · exact hsame
    · have hval : (generateImageDispatch c1netAllMiss "https://p" "m"
          [("https://p", "{baseUrl}/api/generate")]).result =
            Except.error "ECONNREFUSED" := rfl
      rw [hval] at hres
      exact Except.noConfusion hres
  · have h2 := h.2 "{baseUrl}/api/generate" (by decide)
    rw [h2]; rfl

/-! ## Lemmas about the worker -/

/-- Dispatch counting distributes over concatenation. -/
theorem dispatchCount_append (a b : List WorkerEvent) :
    dispatchCount (a ++ b) = dispatchCount a + dispatchCount b := by
  simp [dispatchCount, List.filter_append]

/-- The catch branch performs no dispatch. -/
theorem dispatchCount_classifyCatch (task : AIGenerationTask) (env : WorkerEnv)
    (e : String) : dispatchCount (classifyCatch task env e) = 0 := by
  by_cases h : strContains e "PROHIBITED_CONTENT:" = true <;>
    cases henv : env.hasBoard <;>
      simp [classifyCatch, h, henv, dispatchCount]

/-- The guarded body dispatches exactly once when a key is configured, and
never without one (the missing-key throw precedes the dispatch). -/
theorem dispatchCount_processTaskTry (task : AIGenerationTask) (env : WorkerEnv) :
    dispatchCount (processTaskTry task env).1 =
      if env.apiKey = "" then 0 else 1 := by
  rcases env with ⟨hb, key, gen, rep⟩
  by_cases hkey : key = ""
  · cases hb <;> simp [processTaskTry, hkey, dispatchCount, phEvents]
  · rcases gen with e | url
    · cases hb <;> simp [processTaskTry, hkey, dispatchCount, phEvents]
    · cases hb
      · simp [processTaskTry, hkey, dispatchCount, phEvents]
      · by_cases hurl : url = ""
        · simp [processTaskTry, hkey, dispatchCount, phEvents, hurl]
        · rcases rep with e2 | ro
          · simp [processTaskTry, hkey, dispatchCount, phEvents, hurl]
          · rcases ro with _ | nid
            · simp [processTaskTry, hkey, dispatchCount, phEvents, hurl]
            · rcases h : task.sourceImageIds with _ | l
              · simp [processTaskTry, hkey, dispatchCount, phEvents, hurl, h]
              · cases l <;>
                  simp [processTaskTry, hkey, dispatchCount, phEvents, hurl, h]

/-! ## Claim C2 -/

/-- Claim C2: single flight per task id. An invocation of `processTask` for an
id already in the in-flight set performs no event at all — no dispatch, no
status update — and returns with the set unchanged; an accepted invocation
performs exactly one underlying dispatch (none when the key is missing, as
the throw precedes the dispatch), and on every outcome the finally step
removes the id, restoring the in-flight set. -/
theorem claim2_single_flight (queue : List String) (task : AIGenerationTask)
    (env env2 : WorkerEnv) :
    (task.id ∈ queue → processTask queue task env2 = ([], queue))
    ∧ (task.id ∉ queue →
        dispatchCount (processTask queue task env).1 =
          (if env.apiKey = "" then 0 else 1)
        ∧ (processTask queue task env).2 = queue
        ∧ task.id ∉ (processTask queue task env).2) := by
  constructor
  · intro h
    simp [processTask, h]
  · intro h
    have hq : (processTask queue task env).2 = queue := by
      simp [processTask, h]
    refine ⟨?_, hq, by rw [hq]; exact h⟩
    rcases hb2 : (processTaskTry task env).2 with _ | e
    · simp only [processTask, if_neg h, hb2]
      exact dispatchCount_processTaskTry task env
    · simp only [processTask, if_neg h, hb2]
      rw [dispatchCount_append, dispatchCount_classifyCatch,
        dispatchCount_processTaskTry, Nat.add_zero]

/-- Witness for C2: a second invocation for the in-flight id `t1` is a no-op;
an accepted invocation on the success environment dispatches exactly once and
leaves the in-flight set as it was. -/
theorem claim2_single_flight_witness :
    processTask ["t1"] wtask wenvOk = ([], ["t1"])
    ∧ dispatchCount (processTask [] wtask wenvOk).1 = 1
    ∧ (processTask [] wtask wenvOk).2 = [] := by
  have h1 := (claim2_single_flight ["t1"] wtask wenvOk wenvOk).1 (by decide)
  have h2 := (claim2_single_flight [] wtask wenvOk wenvOk).2 (by decide)
  exact ⟨h1, by rw [h2.1]; decide, h2.2.1⟩

/-- The last status update after appending the catch branch is the terminal
error update it performs (the refusal visual event carries no status). -/
theorem finalStatusUpdate_append_catch (evts : List WorkerEvent)
    (task : AIGenerationTask) (env : WorkerEnv) (e : String) :
    finalStatusUpdate (evts ++ classifyCatch task env e) =
      some (task.id, TaskStatus.error,
        some (if strContains e "PROHIBITED_CONTENT:" = true then "内容被模型拒绝生成"
          else e)) := by
  by_cases h : strContains e "PROHIBITED_CONTENT:" = true <;>
    cases henv : env.hasBoard <;>
      simp [finalStatusUpdate, classifyCatch, h, henv, List.filterMap_append]

/-- A missing API key throws the configuration message before any dispatch. -/
theorem processTaskTry_noKey (task : AIGenerationTask) (env : WorkerEnv)
    (h : env.apiKey = "") :
    (processTaskTry task env).2 = some "请先配置 Gemini API Key" := by
  simp [processTaskTry, h]

/-- With a configured key, a throw of the dispatch (transport error, probe
exhaustion, classified provider error, parse failure) is rethrown by the
body. -/
theorem processTaskTry_gen_error (task : AIGenerationTask) (env : WorkerEnv)
    (msg : String) (hkey : env.apiKey ≠ "") (hgen : env.genResult = Except.error msg) :
    (processTaskTry task env).2 = some msg := by
  simp [processTaskTry, hkey, hgen]

/-! ## Claim C3 -/

/-- Claim C3: `processTask` never rejects. The embedding of `processTask` is a
total function — the enclosing catch converts every throw of the body — and
whenever the body throws (missing API key, transport error, probe
exhaustion, parse failure, classified provider error all surface here), the
task is moved to the terminal error status through the `onStatusUpdate`
callback as the last status update, and the finally step still restores the
in-flight set. The two final conjuncts tie the concrete failure modes to the
thrown message. -/
theorem claim3_failures_resolve (queue : List String) (task : AIGenerationTask)
    (env : WorkerEnv) (e : String) (hq : task.id ∉ queue)
    (he : (processTaskTry task env).2 = some e) :
    (finalStatusUpdate (processTask queue task env).1 =
      some (task.id, TaskStatus.error,
        some (if strContains e "PROHIBITED_CONTENT:" = true then "内容被模型拒绝生成"
          else e)))
    ∧ (processTask queue task env).2 = queue
    ∧ (env.apiKey = "" → e = "请先配置 Gemini API Key")
    ∧ (∀ msg, env.apiKey ≠ "" → env.genResult = Except.error msg → e = msg) := by
  refine ⟨?_, by simp [processTask, hq], ?_, ?_⟩
  · simp only [processTask, if_neg hq, he]
    exact finalStatusUpdate_append_catch _ task env e
  · intro hkey
    have := processTaskTry_noKey task env hkey
    rw [he] at this
    exact Option.some_inj.mp this
  · intro msg hkey hgen
    have := processTaskTry_gen_error task env msg hkey hgen
    rw [he] at this
    exact Option.some_inj.mp this

/-- Witness for C3: the missing-key failure resolves with a terminal error
status update carrying the configuration message. -/
theorem claim3_failures_resolve_witness :
    finalStatusUpdate (processTask [] wtask wenvNoKey).1 =
      some ("t1", TaskStatus.error, some "请先配置 Gemini API Key")
    ∧ (processTask [] wtask wenvNoKey).2 = [] := by
  have h := claim3_failures_resolve [] wtask wenvNoKey "请先配置 Gemini API Key"
    (by decide) (by rfl)
  refine ⟨?_, h.2.1⟩
  rw [h.1]
  decide

/-- The `(status, progress)` trace of the successful body: the four
generating checkpoints followed by the completed update at 1.0, whatever the
board, replacement and arrow branches do. -/
theorem processTaskTry_success (task : AIGenerationTask) (env : WorkerEnv)
    (url : String) (hkey : env.apiKey ≠ "") (hgen : env.genResult = Except.ok url) :
    statusTrace (processTaskTry task env).1 =
      [(TaskStatus.generating, some 0.2), (TaskStatus.generating, some 0.4),
       (TaskStatus.generating, some 0.6), (TaskStatus.generating, some 0.9),
       (TaskStatus.completed, some 1)]
    ∧ (processTaskTry task env).2 = none := by
  rcases env with ⟨hb, key, gen, rep⟩
  simp only [WorkerEnv.apiKey] at hkey
  simp only [WorkerEnv.genResult] at hgen
  subst hgen
  cases hb
  · simp [processTaskTry, hkey, statusTrace, phEvents]
  · by_cases hurl : url = ""
    · simp [processTaskTry, hkey, statusTrace, phEvents, hurl]
    · rcases rep with e2 | ro
      · simp [processTaskTry, hkey, statusTrace, phEvents, hurl]
      · rcases ro with _ | nid
        · simp [processTaskTry, hkey, statusTrace, phEvents, hurl]
        · rcases h : task.sourceImageIds with _ | l
          · simp [processTaskTry, hkey, statusTrace, phEvents, hurl, h]
          · cases l <;> simp [processTaskTry, hkey, statusTrace, phEvents, hurl, h]

/-- The generating-progress values reported by the body, by failure mode:
`[0.2]` when the key is missing, `[0.2, 0.4, 0.6]` when the dispatch throws,
all four checkpoints on success. -/
theorem generatingProgress_processTaskTry (task : AIGenerationTask) (env : WorkerEnv) :
    generatingProgress (processTaskTry task env).1 =
      (if env.apiKey = "" then [(0.2 : ℚ)] else
        match env.genResult with
        | Except.error _ => [(0.2 : ℚ), 0.4, 0.6]
        | Except.ok _ => [(0.2 : ℚ), 0.4, 0.6, 0.9]) := by
  rcases env with ⟨hb, key, gen, rep⟩
  by_cases hkey : key = ""
  · cases hb <;> simp [processTaskTry, hkey, generatingProgress, phEvents]
  · rcases gen with e | url
    · cases hb <;> simp [processTaskTry, hkey, generatingProgress, phEvents]
    · cases hb
      · simp [processTaskTry, hkey, generatingProgress, phEvents]
      · by_cases hurl : url = ""
        · simp [processTaskTry, hkey, generatingProgress, phEvents, hurl]
        · rcases rep with e2 | ro
          · simp [processTaskTry, hkey, generatingProgress, phEvents, hurl]
          · rcases ro with _ | nid
            · simp [processTaskTry, hkey, generatingProgress, phEvents, hurl]
            · rcases h : task.sourceImageIds with _ | l
              · simp [processTaskTry, hkey, generatingProgress, phEvents, hurl, h]
              · cases l <;>
                  simp [processTaskTry, hkey, generatingProgress, phEvents, hurl, h]

/-- The catch branch reports no generating progress. -/
theorem generatingProgress_classifyCatch (task : AIGenerationTask) (env : WorkerEnv)
    (e : String) : generatingProgress (classifyCatch task env e) = [] := by
  by_cases h : strContains e "PROHIBITED_CONTENT:" = true <;>
    cases henv : env.hasBoard <;>
      simp [classifyCatch, h, henv, generatingProgress]

/-! ## Claim C5 -/

/-- Claim C5: for every accepted task the status callback reports the fixed
generating checkpoints 0.2, 0.4, 0.6, 0.9 in that order, ending with 1.0 on
the completed update — stated exactly by the trace equality on the success
path — and on every path (any environment, any outcome) the generating
progress values are non-decreasing. -/
theorem claim5_progress_checkpoints (queue : List String) (task : AIGenerationTask)
    (env : WorkerEnv) (hq : task.id ∉ queue) :
    (∀ url, env.apiKey ≠ "" → env.genResult = Except.ok url →
       statusTrace (processTask queue task env).1 =
         [(TaskStatus.generating, some 0.2), (TaskStatus.generating, some 0.4),
          (TaskStatus.generating, some 0.6), (TaskStatus.generating, some 0.9),
          (TaskStatus.completed, some 1)])
    ∧ List.Chain' (· ≤ ·) (generatingProgress (processTask queue task env).1) := by
  constructor
  · intro url hkey hgen
    obtain ⟨htrace, hnone⟩ := processTaskTry_success task env url hkey hgen
    simp only [processTask, if_neg hq, hnone]
    exact htrace
  · rcases hb2 : (processTaskTry task env).2 with _ | e
    · simp only [processTask, if_neg hq, hb2]
      rw [generatingProgress_processTaskTry]
      by_cases hkey : env.apiKey = ""
      · simp [hkey]
      · rcases hgen : env.genResult with e | url <;>
          { simp only [hkey, hgen, if_neg hkey]
            refine List.chain'_cons.mpr ⟨by norm_num, ?_⟩
            first
            | exact List.chain'_cons.mpr ⟨by norm_num,
                List.chain'_cons.mpr ⟨by norm_num, List.chain'_singleton _⟩⟩
            | exact List.chain'_cons.mpr ⟨by norm_num, List.chain'_singleton _⟩ }
    · simp only [processTask, if_neg hq, hb2, generatingProgress,
        List.filterMap_append]
      rw [← generatingProgress, ← generatingProgress,
        generatingProgress_classifyCatch, List.append_nil,
        generatingProgress_processTaskTry]
      by_cases hkey : env.apiKey = ""
      · simp [hkey]
      · rcases hgen : env.genResult with e2 | url <;>
          { simp only [hkey, hgen, if_neg hkey]
            refine List.chain'_cons.mpr ⟨by norm_num, ?_⟩
            first
            | exact List.chain'_cons.mpr ⟨by norm_num,
                List.chain'_cons.mpr ⟨by norm_num, List.chain'_singleton _⟩⟩
            | exact List.chain'_cons.mpr ⟨by norm_num, List.chain'_singleton _⟩ }

/-- Witness for C5: the success environment reports exactly the five
checkpoints for task `t1`. -/
theorem claim5_progress_checkpoints_witness :
    statusTrace (processTask [] wtask wenvOk).1 =
      [(TaskStatus.generating, some 0.2), (TaskStatus.generating, some 0.4),
       (TaskStatus.generating, some 0.6), (TaskStatus.generating, some 0.9),
       (TaskStatus.completed, some 1)]
    ∧ List.Chain' (· ≤ ·) (generatingProgress (processTask [] wtask wenvOk).1) := by
  have h := claim5_progress_checkpoints [] wtask wenvOk (by decide)
  exact ⟨h.1 "data:image/png;base64,AAA" (by decide) rfl, h.2⟩

/-- Show counting distributes over concatenation. -/
theorem showCount_append (a b : List WorkerEvent) :
    showCount (a ++ b) = showCount a + showCount b := by
  simp [showCount, List.filter_append]

/-- The guarded body never renders the refusal visual. -/
theorem showCount_processTaskTry (task : AIGenerationTask) (env : WorkerEnv) :
    showCount (processTaskTry task env).1 = 0 := by
  rcases env with ⟨hb, key, gen, rep⟩
  by_cases hkey : key = ""
  · cases hb <;> simp [processTaskTry, hkey, showCount, phEvents]
  · rcases gen with e | url
    · cases hb <;> simp [processTaskTry, hkey, showCount, phEvents]
    · cases hb
      · simp [processTaskTry, hkey, showCount, phEvents]
      · by_cases hurl : url = ""
        · simp [processTaskTry, hkey, showCount, phEvents, hurl]
        · rcases rep with e2 | ro
          · simp [processTaskTry, hkey, showCount, phEvents, hurl]
          · rcases ro with _ | nid
            · simp [processTaskTry, hkey, showCount, phEvents, hurl]
            · rcases h : task.sourceImageIds with _ | l
              · simp [processTaskTry, hkey, showCount, phEvents, hurl, h]
              · cases l <;> simp [processTaskTry, hkey, showCount, phEvents, hurl, h]

/-- The catch branch renders the refusal visual exactly when the message
carries the refusal tag and a board exists. -/
theorem showCount_classifyCatch (task : AIGenerationTask) (env : WorkerEnv)
    (e : String) :
    showCount (classifyCatch task env e) =
      (if strContains e "PROHIBITED_CONTENT:" = true ∧ env.hasBoard = true
       then 1 else 0) := by
  by_cases h : strContains e "PROHIBITED_CONTENT:" = true <;>
    cases henv : env.hasBoard <;>
      simp [classifyCatch, h, henv, showCount]

/-! ## Claim C4 -/

/-- Claim C4: the explicit-refusal stop reason classifies as the
`PROHIBITED_CONTENT:`-tagged error, the generic safety stop reason as the
`SAFETY_BLOCKED:`-tagged error; the tags are stable and distinguishable (the
refusal tag occurs in one message and not in the other). In the worker, the
refusal class sets the task to error with the refusal message and — exactly
when a board exists — additionally renders the distinct refusal visual,
while the safety class only sets the task to error with its own message and
renders nothing. -/
theorem claim4_refusal_classification :
    (∀ r c, responseOk r.status = true → r.candidates.head? = some c →
        c.finishReason = some "PROHIBITED_CONTENT" →
        processApiResponse r = Except.error prohibitedContentMessage)
    ∧ (∀ r c, responseOk r.status = true → r.candidates.head? = some c →
        c.finishReason = some "SAFETY" →
        processApiResponse r = Except.error safetyBlockedMessage)
    ∧ strContains prohibitedContentMessage "PROHIBITED_CONTENT:" = true
    ∧ strContains safetyBlockedMessage "PROHIBITED_CONTENT:" = false
    ∧ (∀ queue task env, task.id ∉ queue → env.apiKey ≠ "" →
        env.genResult = Except.error prohibitedContentMessage →
        finalStatusUpdate (processTask queue task env).1 =
          some (task.id, TaskStatus.error, some "内容被模型拒绝生成")
        ∧ showCount (processTask queue task env).1 =
            (if env.hasBoard = true then 1 else 0))
    ∧ (∀ queue task env, task.id ∉ queue → env.apiKey ≠ "" →
        env.genResult = Except.error safetyBlockedMessage →
        finalStatusUpdate (processTask queue task env).1 =
          some (task.id, TaskStatus.error, some safetyBlockedMessage)
        ∧ showCount (processTask queue task env).1 = 0) := by
  have htagP : strContains prohibitedContentMessage "PROHIBITED_CONTENT:" = true := by
    decide
  have htagS : strContains safetyBlockedMessage "PROHIBITED_CONTENT:" = false := by
    decide
  refine ⟨?_, ?_, htagP, htagS, ?_, ?_⟩
  · intro r c hok hhead hfin
    rcases hcand : r.candidates with _ | ⟨c0, rest⟩
    · rw [hcand] at hhead; simp at hhead
    · rw [hcand] at hhead
      simp only [List.head?_cons, Option.some_inj] at hhead
      subst hhead
      simp [processApiResponse, hok, hcand, hfin]
  · intro r c hok hhead hfin
    rcases hcand : r.candidates with _ | ⟨c0, rest⟩
    · rw [hcand] at hhead; simp at hhead
    · rw [hcand] at hhead
      simp only [List.head?_cons, Option.some_inj] at hhead
      subst hhead
      simp [processApiResponse, hok, hcand, hfin]
  · intro queue task env hq hkey hgen
    have he := processTaskTry_gen_error task env prohibitedContentMessage hkey hgen
    constructor
    · simp only [processTask, if_neg hq, he]
      rw [finalStatusUpdate_append_catch, if_pos htagP]
    · simp only [processTask, if_neg hq, he]
      rw [showCount_append, showCount_processTaskTry, showCount_classifyCatch,
        Nat.zero_add]
      cases henv : env.hasBoard <;> simp [htagP, henv]
  · intro queue task env hq hkey hgen
    have he := processTaskTry_gen_error task env safetyBlockedMessage hkey hgen
    constructor
    · simp only [processTask, if_neg hq, he]
      rw [finalStatusUpdate_append_catch, if_neg (by simp [htagS])]
    · simp only [processTask, if_neg hq, he]
      rw [showCount_append, showCount_processTaskTry, showCount_classifyCatch,
        Nat.zero_add]
      simp [htagS]

/-- Witness for C4: the concrete refusal and safety responses classify to the
two distinct tagged messages, and on the concrete environments the worker
renders the refusal visual exactly for the refusal class. -/
theorem claim4_refusal_classification_witness :
    processApiResponse c4resp = Except.error prohibitedContentMessage
    ∧ processApiResponse c4respSafety = Except.error safetyBlockedMessage
    ∧ showCount (processTask [] wtask wenvProhibited).1 = 1
    ∧ showCount (processTask [] wtask wenvSafety).1 = 0
    ∧ finalStatusUpdate (processTask [] wtask wenvProhibited).1 =
        some ("t1", TaskStatus.error, some "内容被模型拒绝生成") := by
  have h := claim4_refusal_classification
  have h1 := h.1 c4resp ⟨some "PROHIBITED_CONTENT", none⟩ (by decide) (by decide)
    (by decide)
  have h2 := h.2.1 c4respSafety ⟨some "SAFETY", none⟩ (by decide) (by decide)
    (by decide)
  have h5 := h.2.2.2.2.1 [] wtask wenvProhibited (by decide) (by decide) rfl
  have h6 := h.2.2.2.2.2 [] wtask wenvSafety (by decide) (by decide) rfl
  refine ⟨h1, h2, ?_, h6.2, h5.1⟩
  rw [h5.2]
  decide

/-- Characterization of the guarded insertion fold: starting from any
accumulator, the fold appends exactly the connections of the non-failing
indices, in order — so a failure at one index never affects any other. -/
theorem arrow_foldl_char (now : Nat) (tgt : BoardNode) (failAt : Nat → Bool)
    (S : List BoardNode) :
    ∀ (n : Nat) (acc : List BoardNode),
      (List.enumFrom n S).foldl
        (fun acc ip =>
          if failAt ip.1 then acc else acc ++ [mkConnection now ip.1 ip.2 tgt]) acc
      = acc ++ ((List.enumFrom n S).filter (fun ip => ! failAt ip.1)).map
          (fun ip => mkConnection now ip.1 ip.2 tgt) := by
  induction S with
  | nil => intro n acc; simp
  | cons x xs ih =>
    intro n acc
    by_cases hf : failAt n
    · simp [List.enumFrom, hf, ih]
    · simp [List.enumFrom, hf, ih]

/-- Disjoint boolean predicates split the length of an or-filter. -/
theorem length_filter_or_disjoint (l : List BoardNode) (p q : BoardNode → Bool)
    (h : ∀ x ∈ l, ¬(p x = true ∧ q x = true)) :
    (l.filter (fun x => p x || q x)).length
      = (l.filter p).length + (l.filter q).length := by
  induction l with
  | nil => simp
  | cons x xs ih =>
    have hx := h x (by simp)
    have hxs : ∀ y ∈ xs, ¬(p y = true ∧ q y = true) := fun y hy => h y (by simp [hy])
    cases hp : p x <;> cases hq : q x
    · simp [hp, hq, ih hxs]
    · simp only [List.filter_cons, hp, hq, Bool.false_or, Bool.or_true, if_true,
        if_false, cond_true, cond_false]
      simp [ih hxs]
      omega
    · simp only [List.filter_cons, hp, hq, Bool.true_or, if_true, if_false,
        cond_true, cond_false]
      simp [ih hxs]
      omega
    · exact absurd ⟨hp, hq⟩ hx

/-- When every source id names exactly one image on the board and the ids are
distinct, the board holds exactly one found source image per id. -/
theorem foundSourceImages_length (board : List BoardNode) (srcIds : List String)
    (hnodup : srcIds.Nodup) (hone : ∀ id ∈ srcIds, imageCountOf board id = 1) :
    (foundSourceImages board srcIds).length = srcIds.length := by
  induction srcIds with
  | nil => simp [foundSourceImages]
  | cons id rest ih =>
    have hid := hone id (by simp)
    have hrest : ∀ i ∈ rest, imageCountOf board i = 1 := fun i hi => hone i (by simp [hi])
    have hnd := List.nodup_cons.mp hnodup
    have hfil : foundSourceImages board (id :: rest)
        = board.filter (fun n =>
            (isImageNode n && (nodeId n == id))
              || (isImageNode n && rest.contains (nodeId n))) := by
      unfold foundSourceImages
      refine List.filter_congr ?_
      intro n _
      cases isImageNode n
      · simp
      · simp only [List.contains_cons, Bool.true_and, Bool.and_or_distrib_left]
    have hdisj : ∀ x ∈ board,
        ¬((isImageNode x && (nodeId x == id)) = true
          ∧ (isImageNode x && rest.contains (nodeId x)) = true) := by
      intro x _ hcontra
      have h1 : isImageNode x = true ∧ nodeId x = id := by
        simpa using hcontra.1
      have h2 : isImageNode x = true ∧ nodeId x ∈ rest := by
        simpa using hcontra.2
      exact hnd.1 (h1.2 ▸ h2.2)
    rw [hfil, length_filter_or_disjoint board _ _ hdisj]
    have h1 : (board.filter (fun n => isImageNode n && (nodeId n == id))).length = 1 :=
      hid
    have h2 : board.filter (fun n => isImageNode n && rest.contains (nodeId n))
        = foundSourceImages board rest := rfl
    rw [h1, h2, ih hnd.2 hrest]
    simp [Nat.add_comm]

/-- On the success path with a board, a non-empty source list and a returned
replacement id, the body schedules the connector-creation batch after the
100 ms settle delay. -/
theorem processTaskTry_schedules (task : AIGenerationTask) (env : WorkerEnv)
    (url newId sid : String) (sids : List String)
    (hkey : env.apiKey ≠ "") (hgen : env.genResult = Except.ok url) (hurl : url ≠ "")
    (hb : env.hasBoard = true) (hrep : env.replaceOutcome = Except.ok (some newId))
    (hsrc : task.sourceImageIds = some (sid :: sids)) :
    WorkerEvent.scheduleArrowCreation 100 (sid :: sids) newId
      ∈ (processTaskTry task env).1 := by
  rcases env with ⟨hbv, key, gen, rep⟩
  simp only [WorkerEnv.apiKey] at hkey
  simp only [WorkerEnv.genResult] at hgen
  simp only [WorkerEnv.hasBoard] at hb
  simp only [WorkerEnv.replaceOutcome] at hrep
  subst hgen; subst hb; subst hrep
  simp [processTaskTry, hkey, hurl, hsrc, phEvents]

/-! ## Claim C9 -/

/-- Claim C9: after a successful generation with a non-empty source list, the
worker requests the connector batch behind a 100 ms settle delay; inside
`createSmartArrowConnection` each edge insertion is independently guarded —
the resulting board is the original plus exactly the connections of the
non-failing indices, so one failure never aborts a sibling edge — and when
every source id names exactly one image on the board, one edge is attempted
per source id. -/
theorem claim9_connector_edges :
    (∀ (queue : List String) (task : AIGenerationTask) (env : WorkerEnv)
        (url newId sid : String) (sids : List String),
        task.id ∉ queue → env.apiKey ≠ "" → env.genResult = Except.ok url →
        url ≠ "" → env.hasBoard = true →
        env.replaceOutcome = Except.ok (some newId) →
        task.sourceImageIds = some (sid :: sids) →
        WorkerEvent.scheduleArrowCreation 100 (sid :: sids) newId
          ∈ (processTask queue task env).1)
    ∧ (∀ (board : List BoardNode) (srcIds : List String) (targetId : String)
        (failAt : Nat → Bool) (now : Nat) (tgt : BoardNode),
        srcIds ≠ [] → targetId ≠ "" →
        foundTargetImage board targetId = some tgt →
        foundSourceImages board srcIds ≠ [] →
        createSmartArrowConnection board srcIds targetId failAt now =
          board ++ (((foundSourceImages board srcIds).enum.filter
              (fun ip => ! failAt ip.1)).map
            (fun ip => mkConnection now ip.1 ip.2 tgt)))
    ∧ (∀ (board : List BoardNode) (srcIds : List String),
        srcIds.Nodup → (∀ id ∈ srcIds, imageCountOf board id = 1) →
        (foundSourceImages board srcIds).length = srcIds.length) := by
  refine ⟨?_, ?_, foundSourceImages_length⟩
  · intro queue task env url newId sid sids hq hkey hgen hurl hb hrep hsrc
    have hmem := processTaskTry_schedules task env url newId sid sids hkey hgen hurl
      hb hrep hsrc
    have hnone := (processTaskTry_success task env url hkey hgen).2
    simp only [processTask, if_neg hq, hnone]
    exact hmem
  · intro board srcIds targetId failAt now tgt hsrc htid htgt hS
    simp only [createSmartArrowConnection, if_neg hsrc, if_neg htid, htgt, if_neg hS]
    exact arrow_foldl_char now tgt failAt (foundSourceImages board srcIds) 0 board

/-- Witness for C9: the success environment schedules the batch for the two
source ids; on the concrete board with the insertion of edge 0 failing, the
edge for source `s2` is still created; both source ids are found. -/
theorem claim9_connector_edges_witness :
    WorkerEvent.scheduleArrowCreation 100 ["s1", "s2"] "new1"
      ∈ (processTask [] wtask wenvOk).1
    ∧ createSmartArrowConnection c9board ["s1", "s2"] "tgt1" (fun i => i == 0) 7 =
        c9board ++ [mkConnection 7 1 c9s2 c9tgt]
    ∧ (foundSourceImages c9board ["s1", "s2"]).length = 2 := by
  have h := claim9_connector_edges
  refine ⟨h.1 [] wtask wenvOk "data:image/png;base64,AAA" "new1" "s1" ["s2"]
      (by decide) (by decide) rfl (by decide) rfl rfl rfl, ?_, ?_⟩
  · have h2 := h.2.1 c9board ["s1", "s2"] "tgt1" (fun i => i == 0) 7 c9tgt
      (by decide) (by decide) rfl (by decide)
    rw [h2]
    rfl
  · exact h.2.2 c9board ["s1", "s2"] (by decide) (by decide)

/-! ## Claim C6 -/

/-- Counterexample for C6: on a board where two placeholders (`p1`, then
`p2`, the most recently created) are registered to task `t`,
`replacePlaceholderWithImage` returns a new node id but deletes and
unregisters only the first-found `p1`: `p2` is still on the board and still
registered, and the anchor used is the first-found placeholder, not the most
recently created one — refuting "deletes all N registered nodes, unregisters
all of them, and anchors at the most recently created placeholder". -/
theorem claim6_replace_counterexample :
    PlaceholderRegistry.getTaskId "p1" c6reg = some "t"
    ∧ PlaceholderRegistry.getTaskId "p2" c6reg = some "t"
    ∧ (replacePlaceholderWithImage c6board c6reg "t" "u" false false "new1").2.2
        = some "new1"
    ∧ ((replacePlaceholderWithImage c6board c6reg "t" "u" false false "new1").1.filter
        (fun n => nodeId n == "p2")).length = 1
    ∧ PlaceholderRegistry.getTaskId "p2"
        (replacePlaceholderWithImage c6board c6reg "t" "u" false false "new1").2.1
        = some "t"
    ∧ (findPlaceholderByTaskId c6board c6reg "t").map nodeId = some "p1" := by
  refine ⟨rfl, rfl, rfl, ?_, rfl, rfl⟩
  decide

/-- Claim C6 amended: `replacePlaceholderWithImage` resolves the FIRST node in
board order registered to the task — not all of them, and not the most
recently created one. It inserts exactly one artifact node at that node's
anchor and extent, removes only that node (a removal failure being caught
and not blocking the return value), unregisters only that node, and returns
the fresh node id; for a task with no registered placeholder it returns
`none` without throwing and changes nothing. -/
theorem claim6_replace_amended (board : List BoardNode) (reg : Registry)
    (taskId url freshId : String) (removeFails : Bool) :
    (findPlaceholderByTaskId board reg taskId = none →
      replacePlaceholderWithImage board reg taskId url false removeFails freshId
        = (board, reg, none))
    ∧ (∀ ph, findPlaceholderByTaskId board reg taskId = some ph →
        (replacePlaceholderWithImage board reg taskId url false removeFails
            freshId).2.2 = some freshId
        ∧ (replacePlaceholderWithImage board reg taskId url false removeFails
            freshId).2.1 = PlaceholderRegistry.unregister (nodeId ph) reg
        ∧ (replacePlaceholderWithImage board reg taskId url false removeFails
            freshId).1
            = (if removeFails then
                insertImage board (ImageUrl.artifact url)
                  ((nodeP2 ph).1 - (nodeP1 ph).1) ((nodeP2 ph).2 - (nodeP1 ph).2)
                  (nodeP1 ph) freshId
              else
                (insertImage board (ImageUrl.artifact url)
                  ((nodeP2 ph).1 - (nodeP1 ph).1) ((nodeP2 ph).2 - (nodeP1 ph).2)
                  (nodeP1 ph) freshId).filter (fun n => nodeId n ≠ nodeId ph))) := by
  constructor
  · intro h
    simp [replacePlaceholderWithImage, h]
  · intro ph h
    refine ⟨?_, ?_, ?_⟩ <;> simp [replacePlaceholderWithImage, h]

/-- Witness for the amended C6: on the two-placeholder board the first-found
`p1` anchors the replacement even when removal fails, and an unknown task id
changes nothing. -/
theorem claim6_replace_amended_witness :
    replacePlaceholderWithImage c6board c6reg "zzz" "u" false false "new1"
      = (c6board, c6reg, none)
    ∧ (replacePlaceholderWithImage c6board c6reg "t" "u" false true "new1").2.2
      = some "new1"
    ∧ (replacePlaceholderWithImage c6board c6reg "t" "u" false true "new1").2.1
      = PlaceholderRegistry.unregister "p1" c6reg := by
  have h0 := (claim6_replace_amended c6board c6reg "zzz" "u" "new1" false).1 rfl
  have h1 := (claim6_replace_amended c6board c6reg "t" "u" "new1" true).2 c6p1 rfl
  exact ⟨h0, h1.1, h1.2.1⟩

/-! ## Claim C7 -/

/-- Counterexample for C7: updating the stored pending task `t1` to the
terminal status `error` leaves `completedAt` unset — the merge stamps
`completedAt` only on `status === 'completed'` — so after this update the
task has a terminal status while `completedAt` is not set, refuting
"completedAt is set if and only if the status is completed or error". -/
theorem claim7_completedAt_counterexample :
    (updateTaskStatus c7tasks "t1" TaskStatus.error ⟨none, none, none, none, none⟩
        5).map (fun t => (t.id, t.status, t.completedAt))
      = [("t1", TaskStatus.error, none)] := by
  decide

/-- Claim C7 amended: `updateTaskStatus` merges the given partial fields into
the task with the given id and stamps `completedAt` exactly when the update
sets status `completed` — an update to `error` (or any other status) leaves
the stored `completedAt` unchanged, so a task can sit in the terminal
`error` status with `completedAt` unset; an update for an unknown task id
changes no stored task. -/
theorem claim7_update_merge (tasks : List AIGenerationTask) (taskId : String)
    (status : TaskStatus) (u : TaskUpdates) (now : Nat) :
    ((∀ t ∈ tasks, t.id ≠ taskId) → updateTaskStatus tasks taskId status u now = tasks)
    ∧ (∀ t ∈ tasks, t.id = taskId →
        mergeTask t status u now ∈ updateTaskStatus tasks taskId status u now
        ∧ (mergeTask t status u now).id = t.id
        ∧ (mergeTask t status u now).status = status
        ∧ (mergeTask t status u now).completedAt
            = (if status = TaskStatus.completed then some now else t.completedAt)
        ∧ (mergeTask t status u now).createdAt = t.createdAt
        ∧ (mergeTask t status u now).progress = overrideWith u.progress t.progress
        ∧ (mergeTask t status u now).progressStage
            = overrideWith u.progressStage t.progressStage
        ∧ (mergeTask t status u now).generatedImageUrl
            = overrideWith u.generatedImageUrl t.generatedImageUrl
        ∧ (mergeTask t status u now).errorMsg = overrideWith u.errorMsg t.errorMsg
        ∧ (mergeTask t status u now).placeholderId
            = overrideWith u.placeholderId t.placeholderId) := by
  constructor
  · intro h
    unfold updateTaskStatus
    conv_rhs => rw [← List.map_id tasks]
    refine List.map_congr_left ?_
    intro t ht
    simp [h t ht]
  · intro t ht hid
    refine ⟨?_, rfl, rfl, rfl, rfl, rfl, rfl, rfl, rfl, rfl⟩
    unfold updateTaskStatus
    refine List.mem_map.mpr ⟨t, ht, ?_⟩
    simp [hid]

/-- Witness for the amended C7: updating `t1` to `completed` stamps
`completedAt = 5`; updating it to `error` leaves it unset; an update for an
unknown id is a no-op. -/
theorem claim7_update_merge_witness :
    updateTaskStatus c7tasks "zzz" TaskStatus.completed
        ⟨none, none, none, none, none⟩ 5 = c7tasks
    ∧ (mergeTask ⟨"t1", TaskStatus.pending, "p", [], none, none, none, none, 0,
          none, none, none⟩ TaskStatus.completed ⟨none, none, none, none, none⟩
          5).completedAt
        = (if TaskStatus.completed = TaskStatus.completed then some 5 else none)
    ∧ (mergeTask ⟨"t1", TaskStatus.pending, "p", [], none, none, none, none, 0,
          none, none, none⟩ TaskStatus.error ⟨none, none, none, none, none⟩
          5).completedAt
        = (if TaskStatus.error = TaskStatus.completed then some 5 else none) := by
  have h0 := (claim7_update_merge c7tasks "zzz" TaskStatus.completed
    ⟨none, none, none, none, none⟩ 5).1 (by decide)
  have h1 := (claim7_update_merge c7tasks "t1" TaskStatus.completed
    ⟨none, none, none, none, none⟩ 5).2
    ⟨"t1", TaskStatus.pending, "p", [], none, none, none, none, 0, none, none, none⟩
    (by decide) rfl
  have h2 := (claim7_update_merge c7tasks "t1" TaskStatus.error
    ⟨none, none, none, none, none⟩ 5).2
    ⟨"t1", TaskStatus.pending, "p", [], none, none, none, none, 0, none, none, none⟩
    (by decide) rfl
  exact ⟨h0, h1.2.2.2.1, h2.2.2.2.1⟩

/-- Evaluation of `createAIPlaceholder` under an explicit anchor and positive
explicit size: the placeholder node is appended at the anchor with exactly
the progress-dependent SVG quantities. -/
theorem createAIPlaceholder_explicit (board selected : List BoardNode)
    (reg : Registry) (taskId : String) (pt : BoardPoint) (w h : ℚ)
    (pr : Option String) (prog : Option ℚ) (freshId : String)
    (hw : 0 < w) (hh : 0 < h) :
    createAIPlaceholder board selected reg taskId (some pt) (some w) (some h)
        pr prog freshId
      = (insertImage board
           (ImageUrl.placeholderSvg (displayPromptOf pr)
             (max 100 (w * 0.6) * prog.getD 0) (round (prog.getD 0 * 100)))
           w h pt freshId,
         PlaceholderRegistry.register freshId taskId reg,
         BoardNode.image freshId pt (pt.1 + w, pt.2 + h)
           (ImageUrl.placeholderSvg (displayPromptOf pr)
             (max 100 (w * 0.6) * prog.getD 0) (round (prog.getD 0 * 100)))) := by
  unfold createAIPlaceholder
  simp only [if_pos (And.intro hw hh)]

/-! ## Claim C10 -/

/-- Claim C10: for every progress value `p` — below 0 and above 1 included —
`updatePlaceholderProgress` on a task with a registered placeholder replaces
it with a fresh placeholder whose rendered progress quantities (bar fill and
percent label) are computed from `p` clamped to `[0, 1]` via
`max 0 (min 1 p)`, and returns `true`; the clamp is indeed within `[0, 1]`
and collapses to the bounds outside them; with no registered placeholder it
returns `false` and leaves the board and registry untouched. -/
theorem claim10_progress_clamped (board selected : List BoardNode) (reg : Registry)
    (taskId : String) (p : ℚ) (freshId : String) :
    (findPlaceholderByTaskId board reg taskId = none →
      updatePlaceholderProgress board selected reg taskId p false freshId
        = (false, board, reg))
    ∧ (∀ ph, findPlaceholderByTaskId board reg taskId = some ph →
        0 < (nodeP2 ph).1 - (nodeP1 ph).1 → 0 < (nodeP2 ph).2 - (nodeP1 ph).2 →
        (updatePlaceholderProgress board selected reg taskId p false freshId).1 = true
        ∧ (updatePlaceholderProgress board selected reg taskId p false
              freshId).2.1.getLast?
            = some (BoardNode.image freshId (nodeP1 ph)
                ((nodeP1 ph).1 + ((nodeP2 ph).1 - (nodeP1 ph).1),
                 (nodeP1 ph).2 + ((nodeP2 ph).2 - (nodeP1 ph).2))
                (ImageUrl.placeholderSvg "AI 图像生成"
                  (max 100 (((nodeP2 ph).1 - (nodeP1 ph).1) * 0.6)
                    * max 0 (min 1 p))
                  (round (max 0 (min 1 p) * 100)))))
    ∧ 0 ≤ max 0 (min 1 p) ∧ max 0 (min 1 p) ≤ 1
    ∧ (1 < p → max 0 (min 1 p) = 1) ∧ (p < 0 → max 0 (min 1 p) = 0) := by
  refine ⟨?_, ?_, le_max_left 0 _, max_le zero_le_one (min_le_left 1 p), ?_, ?_⟩
  · intro h
    unfold updatePlaceholderProgress
    rw [h]
  · intro ph h hw hh
    have hdp : displayPromptOf (some "AI 图像生成") = "AI 图像生成" := by decide
    constructor
    · unfold updatePlaceholderProgress
      rw [h]
      rfl
    · unfold updatePlaceholderProgress
      rw [h]
      dsimp only
      rw [createAIPlaceholder_explicit _ _ _ _ _ _ _ _ _ _ hw hh, hdp]
      simp [insertImage]
  · intro h1
    rw [min_eq_left (le_of_lt h1), max_eq_right zero_le_one]
  · intro h0
    rw [min_eq_right (le_of_lt (lt_trans h0 zero_lt_one)),
      max_eq_left (le_of_lt h0)]

/-- Witness for C10: on the one-placeholder board an out-of-range progress of
2 still succeeds, the clamp evaluates to 1, and an unregistered task id is
reported `false` with nothing changed. -/
theorem claim10_progress_clamped_witness :
    (updatePlaceholderProgress c10board [] c10reg "t" 2 false "n1").1 = true
    ∧ max 0 (min 1 (2 : ℚ)) = 1
    ∧ updatePlaceholderProgress c10board [] c10reg "zzz" 2 false "n1"
        = (false, c10board, c10reg) := by
  have h := claim10_progress_clamped c10board [] c10reg "t" 2 "n1"
  have hz := claim10_progress_clamped c10board [] c10reg "zzz" 2 "n1"
  have h2 := h.2.1 (BoardNode.image "p1" (0, 0) (10, 10) (ImageUrl.artifact "x"))
    rfl (by simp [nodeP1, nodeP2]) (by simp [nodeP1, nodeP2])
  exact ⟨h2.1, h.2.2.2.2.1 one_lt_two, hz.1 rfl⟩

end Drawnix
